import Mathlib

/-!
Verification of the SkSL per-thread compilation-context core
(`src/third_party/skia/src/sksl/SkSLThreadContext.cpp`).

Shallow embedding conventions:
- Pointers are modelled as `Option Nat` (a `Nat` identifier, `none` = null);
  references that are never null are plain `Nat` identifiers.
- `ProgramConfig` is small value data; the compiler's `fConfig` pointer slot is
  modelled by value (`Option ProgramConfig`): the destructor restores the saved
  value exactly, so value semantics is faithful for every claim considered.
- `SkASSERT` / `SkASSERTF` / `SK_ABORT` are the code's fatal error-detection:
  an operation guarded by one returns `Except Unit _`, `.error ()` when the
  assertion fires (a null-pointer dereference in the code is likewise modelled
  as the fatal `.error ()` outcome).
- Thread-local pool attachment is tracked by an explicit list of attached pool
  identifiers carried in the state (`attachedPools`).
-/

namespace SkSLModel

/-- `SkSL::ProgramKind` — an enum; its enumerators are irrelevant here. -/
abbrev ProgramKind := Nat

/-- The fields of `SkSL::ProgramSettings` that `ThreadContext` reads:
`fDSLUseMemoryPool` (pooling requested) and `fExternalFunctions`
(externally supplied callable symbols, nullable list). -/
structure ProgramSettings where
  fDSLUseMemoryPool : Bool
  fExternalFunctions : Option (List Nat)
  deriving DecidableEq, Repr

/-- `SkSL::ProgramConfig`: kind + settings + builtin flag, built once per
context (`fConfig->fKind = kind; fConfig->fSettings = settings;
fConfig->fIsBuiltinCode = isModule`). -/
structure ProgramConfig where
  fKind : ProgramKind
  fSettings : ProgramSettings
  fIsBuiltinCode : Bool
  deriving DecidableEq, Repr

/-- `SkSL::ParsedModule`: `fSymbols` (a symbol-table chain, here the list of
scope tags, `none` = null) and `fElements` (builtin elements pointer). -/
structure ParsedModule where
  fSymbols : Option (List Bool)
  fElements : Option Nat
  deriving DecidableEq, Repr

/-- The mutable slots of the shared `SkSL::Context` record
(`fCompiler->fContext`) that `ThreadContext` saves, overwrites and restores,
plus the capability flag `fCaps.useNodePools()` (immutable). -/
structure SkContext where
  fErrors : Nat
  fConfig : Option ProgramConfig
  fModifiersPool : Option Nat
  fBuiltins : Option Nat
  fCapsUseNodePools : Bool
  deriving DecidableEq, Repr

/-- Compiler-side state visible to `ThreadContext`: the shared context record,
the compiler's symbol-table slot (`fCompiler->fSymbolTable`, a scope chain of
builtin/user tags, `none` = null), and the executing thread's stack of
attached memory pools (`Pool::attachToThread` / `detachFromThread`). -/
structure CompilerState where
  fContext : SkContext
  fSymbolTable : Option (List Bool)
  attachedPools : List Nat
  deriving DecidableEq, Repr

/-- One fragment-emission frame (`ThreadContext::StackFrame`): borrowed
processor and emit-args handles, plus the owned saved declaration buffer. -/
structure StackFrame where
  fProcessor : Nat
  fEmitArgs : Nat
  fSavedDeclarations : List Nat
  deriving DecidableEq, Repr

/-- `SkSL::ThreadContext`: the saved (borrowed) previous slots, the owned
config / modifiers pool / memory pool, the settings copy, the context's own
default error reporter, the accumulated program elements, and the
fragment-emission frame stack. -/
structure ThreadContext where
  fOldErrorReporter : Nat
  fOldConfig : Option ProgramConfig
  fOldModifiersPool : Option Nat
  fSettings : ProgramSettings
  fModifiersPool : Option Nat
  fConfig : ProgramConfig
  fPool : Option Nat
  fDefaultErrorReporter : Nat
  fProgramElements : List Nat
  fStack : List StackFrame
  deriving DecidableEq, Repr

namespace ThreadContext

/-- `ThreadContext::ThreadContext(compiler, kind, settings, module, isModule)`.
Saves the compiler's current error reporter, config and modifiers pool; when
not compiling a builtin module, creates (and attaches) a memory pool if
`fCaps.useNodePools() && settings.fDSLUseMemoryPool`, and creates and installs
a fresh modifiers pool; builds and installs a new `ProgramConfig`; installs
the context's own default error reporter; installs the module's elements as
builtins and its symbols as the compiler's symbol table, then pushes one
scope tagged with `fConfig->fIsBuiltinCode` (`setupSymbolTable`).
`fresh` supplies identifiers for the newly allocated objects
(pool = `fresh`, modifiers pool = `fresh + 1`, default reporter = `fresh + 2`). -/
def construct (s : CompilerState) (kind : ProgramKind) (settings : ProgramSettings)
    (module : ParsedModule) (isModule : Bool) (fresh : Nat) :
    ThreadContext × CompilerState :=
  let fOldErrorReporter := s.fContext.fErrors
  let fOldModifiersPool := s.fContext.fModifiersPool
  let fOldConfig := s.fContext.fConfig
  let fPool : Option Nat :=
    if !isModule && s.fContext.fCapsUseNodePools && settings.fDSLUseMemoryPool then
      some fresh
    else none
  let fModifiersPool : Option Nat := if !isModule then some (fresh + 1) else none
  let fConfig : ProgramConfig :=
    { fKind := kind, fSettings := settings, fIsBuiltinCode := isModule }
  let fDefaultErrorReporter := fresh + 2
  let tc : ThreadContext :=
    { fOldErrorReporter := fOldErrorReporter
      fOldConfig := fOldConfig
      fOldModifiersPool := fOldModifiersPool
      fSettings := settings
      fModifiersPool := fModifiersPool
      fConfig := fConfig
      fPool := fPool
      fDefaultErrorReporter := fDefaultErrorReporter
      fProgramElements := []
      fStack := [] }
  let s1 : CompilerState :=
    { fContext :=
        { fErrors := fDefaultErrorReporter
          fConfig := some fConfig
          fModifiersPool :=
            if !isModule then some (fresh + 1) else s.fContext.fModifiersPool
          fBuiltins := module.fElements
          fCapsUseNodePools := s.fContext.fCapsUseNodePools }
      fSymbolTable := some (isModule :: module.fSymbols.getD [])
      attachedPools :=
        match fPool with
        | some p => p :: s.attachedPools
        | none => s.attachedPools }
  (tc, s1)

/-- `ThreadContext::~ThreadContext()`. If the symbol table is non-null, null
it out and clear the accumulated program elements; otherwise
`SkASSERT(fProgramElements.empty())` (fatal when it fires). Then
unconditionally restore the saved error reporter, config and modifiers pool,
and detach the owned memory pool from the thread if one was created. The
`Bool` in the result records whether `detachFromThread` ran. -/
def destruct (tc : ThreadContext) (s : CompilerState) :
    Except Unit (CompilerState × Bool) :=
  let restore : CompilerState → CompilerState := fun st =>
    { st with
      fContext :=
        { st.fContext with
          fErrors := tc.fOldErrorReporter
          fConfig := tc.fOldConfig
          fModifiersPool := tc.fOldModifiersPool }
      attachedPools :=
        match tc.fPool with
        | some p => st.attachedPools.erase p
        | none => st.attachedPools }
  if s.fSymbolTable.isSome then
    .ok (restore { s with fSymbolTable := none }, tc.fPool.isSome)
  else if tc.fProgramElements.isEmpty then
    .ok (restore s, tc.fPool.isSome)
  else
    .error ()

/-- The triple of compiler slots that the destructor restores:
(error reporter, config, modifiers pool). -/
def compilerSlots (s : CompilerState) : Nat × Option ProgramConfig × Option Nat :=
  (s.fContext.fErrors, s.fContext.fConfig, s.fContext.fModifiersPool)

/-- The arguments of one `ThreadContext` construction. -/
structure CtorArgs where
  kind : ProgramKind
  settings : ProgramSettings
  module : ParsedModule
  isModule : Bool
  deriving DecidableEq, Repr

/-- `N` nested compilations on one thread: construct a context for the head
arguments, recursively run the nested compilations, then destroy the head
context (strict LIFO unwinding). Returns the final compiler state. -/
def nestCompilations (s : CompilerState) (fresh : Nat) :
    List CtorArgs → Except Unit CompilerState
  | [] => .ok s
  | a :: rest =>
    match nestCompilations
        (construct s a.kind a.settings a.module a.isModule fresh).2 (fresh + 3) rest with
    | .error e => .error e
    | .ok s2 =>
      match destruct (construct s a.kind a.settings a.module a.isModule fresh).1 s2 with
      | .error e => .error e
      | .ok r => .ok r.1

/-- Default build (`!defined(STARBOARD)`): `ThreadContext::IsActive()` —
true iff a context is installed in the thread-local slot. -/
def IsActive (inst : Option Nat) : Bool :=
  inst.isSome

/-- Default build: `ThreadContext::Instance()` —
`SkASSERTF(instance, ...)` then `*instance`; fatal when no context is
installed. -/
def Instance : Option Nat → Except Unit Nat
  | some t => .ok t
  | none => .error ()

/-- Default build: `ThreadContext::SetInstance(newInstance)` —
`SkASSERT((instance == nullptr) != (newInstance == nullptr))`, then delete
the old instance and install the new one. Fatal when the assertion fires. -/
def SetInstance (inst newInstance : Option Nat) : Except Unit (Option Nat) :=
  if (inst.isNone != newInstance.isNone) then
    .ok newInstance
  else
    .error ()

/-- STARBOARD build: `ThreadContext::Instance()` — `return *instance;` with
no check; dereferencing a null instance is modelled as the fatal outcome. -/
def InstanceStarboard : Option Nat → Except Unit Nat
  | some t => .ok t
  | none => .error ()

/-- STARBOARD build: `ThreadContext::SetInstance(newInstance)` — deletes the
old instance and stores the new one unconditionally; there is no assertion. -/
def SetInstanceStarboard (_inst newInstance : Option Nat) : Option Nat :=
  newInstance

/-- `ThreadContext::Modifiers(modifiers)` —
`Context().fModifiersPool->add(modifiers)`: dereferences the compiler's
modifiers-pool slot with no null check (null dereference = fatal); on a
non-null pool it interns the value, returning a stable reference into that
pool (modelled as the pool identifier paired with the value). -/
def Modifiers (s : CompilerState) (modifiers : Nat) : Except Unit (Nat × Nat) :=
  match s.fContext.fModifiersPool with
  | some p => .ok (p, modifiers)
  | none => .error ()

/-- Outcome of an error-reporter handler call: process abort with a
diagnostic, or a normal return. -/
inductive HandlerOutcome where
  | abort (diagnostic : String)
  | returned
  deriving DecidableEq, Repr

/-- `ThreadContext::DefaultErrorReporter::handleError(msg, pos)` —
`SK_ABORT("error: %.*s\nNo SkSL error reporter configured, ...")`:
unconditionally terminates the process with the formatted diagnostic. -/
def DefaultErrorReporter.handleError (msg : String) (_pos : Nat) : HandlerOutcome :=
  HandlerOutcome.abort
    ("error: " ++ msg ++
      "\nNo SkSL error reporter configured, treating this as a fatal error\n")

end ThreadContext

/-- The state touched by the fragment-emission frame protocol: the GPU shader
builder's live declaration buffer (`fFragBuilder->fDeclarations`), the
context's frame stack (`fStack`, top first), and the depth of the symbol-table
scope chain (`dsl::PushSymbolTable` / `dsl::PopSymbolTable`). -/
structure EmitState where
  fDeclarations : List Nat
  fStack : List StackFrame
  scopes : Nat
  deriving DecidableEq, Repr

namespace ThreadContext

/-- `ThreadContext::StartFragmentProcessor(processor, emitArgs)` — pushes a
frame with an empty saved buffer, swaps the builder's declaration buffer with
the top frame's saved buffer (builder becomes empty, the frame holds the
enclosing declarations), and pushes a symbol-table scope. -/
def StartFragmentProcessor (processor emitArgs : Nat) (s : EmitState) : EmitState :=
  { fDeclarations := []
    fStack :=
      { fProcessor := processor, fEmitArgs := emitArgs
        fSavedDeclarations := s.fDeclarations } :: s.fStack
    scopes := s.scopes + 1 }

/-- `ThreadContext::EndFragmentProcessor()` — `SkASSERT(!fStack.empty())`
(fatal on an empty stack), then swaps the builder's declaration buffer back
with the top frame's saved buffer, pops the frame, and pops a symbol-table
scope. -/
def EndFragmentProcessor (s : EmitState) : Except Unit EmitState :=
  match s.fStack with
  | [] => .error ()
  | f :: rest =>
    .ok { fDeclarations := f.fSavedDeclarations, fStack := rest, scopes := s.scopes - 1 }

/-- One step of shader emission observed by the frame stack: emitting a
declaration into the builder's buffer, starting a nested processor, or ending
the current one. -/
inductive EmitOp where
  | emit (d : Nat)
  | start (processor emitArgs : Nat)
  | stop
  deriving DecidableEq, Repr

/-- Appending one declaration to the builder's live declaration buffer. -/
def emitDecl (d : Nat) (s : EmitState) : EmitState :=
  { s with fDeclarations := s.fDeclarations ++ [d] }

/-- Run a sequence of emission steps, propagating the fatal outcome of an
unmatched `EndFragmentProcessor`. -/
def runOps : List EmitOp → EmitState → Except Unit EmitState
  | [], s => .ok s
  | EmitOp.emit d :: rest, s => runOps rest (emitDecl d s)
  | EmitOp.start p a :: rest, s => runOps rest (StartFragmentProcessor p a s)
  | EmitOp.stop :: rest, s =>
    match EndFragmentProcessor s with
    | .error e => .error e
    | .ok s1 => runOps rest s1

/-- Balanced emission sequences: every `start` has a matching later `stop`,
properly nested. -/
inductive Balanced : List EmitOp → Prop
  | nil : Balanced []
  | emit (d : Nat) (rest : List EmitOp) : Balanced rest → Balanced (EmitOp.emit d :: rest)
  | nest (p a : Nat) (inner rest : List EmitOp) :
      Balanced inner → Balanced rest →
      Balanced (EmitOp.start p a :: inner ++ EmitOp.stop :: rest)

end ThreadContext

/-- A compiler state as it looks at the start of a user compile. -/
def sampleState : CompilerState :=
  { fContext :=
      { fErrors := 0
        fConfig := none
        fModifiersPool := none
        fBuiltins := none
        fCapsUseNodePools := true }
    fSymbolTable := some []
    attachedPools := [] }

/-- A compiler state whose modifiers-registry slot is null (no enclosing
compile ever installed a registry). -/
def nullRegistryState : CompilerState :=
  { fContext :=
      { fErrors := 0
        fConfig := none
        fModifiersPool := none
        fBuiltins := none
        fCapsUseNodePools := false }
    fSymbolTable := none
    attachedPools := [] }

/-- Settings requesting memory pooling and supplying no external functions. -/
def sampleSettings : ProgramSettings :=
  { fDSLUseMemoryPool := true, fExternalFunctions := none }

/-- A context constructed for a user compile whose emission frame stack still
holds one unfinished frame (a StartFragmentProcessor without a matching
EndFragmentProcessor) at destruction time. -/
def tcPendingFrame : ThreadContext :=
  { (ThreadContext.construct sampleState 0 sampleSettings
      { fSymbols := some [], fElements := none } false 0).1 with
    fStack := [{ fProcessor := 0, fEmitArgs := 0, fSavedDeclarations := [] }] }

namespace ThreadContext

/-- A freshly constructed context has accumulated no program elements and has
an empty emission frame stack. -/
theorem construct_programElements (s : CompilerState) (kind : ProgramKind)
    (settings : ProgramSettings) (module : ParsedModule) (isModule : Bool) (fresh : Nat) :
    (construct s kind settings module isModule fresh).1.fProgramElements = [] := rfl

/-- The constructed context's saved slots are exactly the compiler slots at
construction time. -/
theorem construct_saved_slots (s : CompilerState) (kind : ProgramKind)
    (settings : ProgramSettings) (module : ParsedModule) (isModule : Bool) (fresh : Nat) :
    ((construct s kind settings module isModule fresh).1.fOldErrorReporter,
     (construct s kind settings module isModule fresh).1.fOldConfig,
     (construct s kind settings module isModule fresh).1.fOldModifiersPool) =
      compilerSlots s := rfl

/-- Destruction of a context with no accumulated program elements never hits
the destructor's assertion: it succeeds, nulls the symbol table, restores the
three saved slots, and detaches the owned pool (if any). -/
theorem destruct_of_empty_elements (tc : ThreadContext) (s2 : CompilerState)
    (h : tc.fProgramElements = []) :
    destruct tc s2 =
      Except.ok
        ({ fContext :=
             { fErrors := tc.fOldErrorReporter
               fConfig := tc.fOldConfig
               fModifiersPool := tc.fOldModifiersPool
               fBuiltins := s2.fContext.fBuiltins
               fCapsUseNodePools := s2.fContext.fCapsUseNodePools }
           fSymbolTable := none
           attachedPools :=
             match tc.fPool with
             | some p => s2.attachedPools.erase p
             | none => s2.attachedPools },
         tc.fPool.isSome) := by
  unfold destruct
  cases hs : s2.fSymbolTable with
  | some st => rfl
  | none => rw [h]; simp [hs]

/-- After destructing a context with no accumulated elements, the compiler
slots are the context's saved triple, whatever the intervening state was. -/
theorem destruct_slots_of_empty_elements (tc : ThreadContext) (s2 : CompilerState)
    (h : tc.fProgramElements = []) :
    (destruct tc s2).map (fun r => compilerSlots r.1) =
      Except.ok (tc.fOldErrorReporter, tc.fOldConfig, tc.fOldModifiersPool) := by
  rw [destruct_of_empty_elements tc s2 h]
  rfl

/-- Nested LIFO compilation/destruction always succeeds and restores the
compiler's error-reporter, config and modifiers-pool slots to their initial
values. -/
theorem nestCompilations_restores_slots (args : List CtorArgs) :
    ∀ (s : CompilerState) (fresh : Nat),
      (nestCompilations s fresh args).map compilerSlots =
        Except.ok (compilerSlots s) := by
  induction args with
  | nil => intro s fresh; rfl
  | cons a rest ih =>
    intro s fresh
    cases hn : nestCompilations
        (construct s a.kind a.settings a.module a.isModule fresh).2 (fresh + 3) rest with
    | error e =>
      have hih := ih (construct s a.kind a.settings a.module a.isModule fresh).2 (fresh + 3)
      rw [hn] at hih
      exact absurd hih (by simp [Except.map])
    | ok s2 =>
      have hd := destruct_of_empty_elements
        (construct s a.kind a.settings a.module a.isModule fresh).1 s2
        (construct_programElements s a.kind a.settings a.module a.isModule fresh)
      simp only [nestCompilations, hn, hd, Except.map]
      rfl

end ThreadContext

/-- C1: nesting N CompilationContext constructions with LIFO destructions on
one thread succeeds, and afterwards the compiler's error-reporter, config and
modifiers-registry slots equal their values before any context was
constructed; moreover each individual destruction restores those slots to the
values they held at that context's construction, whatever state the slots are
in when the destructor runs. -/
theorem c1_nested_compilations_restore_slots :
    ∀ (s : CompilerState) (fresh : Nat) (args : List ThreadContext.CtorArgs),
      (ThreadContext.nestCompilations s fresh args).map ThreadContext.compilerSlots =
        Except.ok (ThreadContext.compilerSlots s) ∧
      (∀ (kind : ProgramKind) (settings : ProgramSettings) (module : ParsedModule)
          (isModule : Bool) (s2 : CompilerState),
        (ThreadContext.destruct
            (ThreadContext.construct s kind settings module isModule fresh).1 s2).map
          (fun r => ThreadContext.compilerSlots r.1) =
            Except.ok (ThreadContext.compilerSlots s)) := by
  intro s fresh args
  refine ⟨ThreadContext.nestCompilations_restores_slots args s fresh, ?_⟩
  intro kind settings module isModule s2
  rw [ThreadContext.destruct_slots_of_empty_elements _ s2
    (ThreadContext.construct_programElements s kind settings module isModule fresh)]
  rfl

/-- C5: a memory pool is created (and attached to the thread) during
construction iff the compile is not a builtin module, node pools are
capability-enabled, and the settings request memory pooling; the destructor
detaches a pool iff construction created one, and a construct/destruct pair
leaves the thread's attached-pool stack exactly as it was. -/
theorem c5_pool_attach_detach_balanced :
    ∀ (s : CompilerState) (kind : ProgramKind) (settings : ProgramSettings)
      (module : ParsedModule) (isModule : Bool) (fresh : Nat) (s2 : CompilerState),
      (ThreadContext.construct s kind settings module isModule fresh).1.fPool.isSome =
        (!isModule && s.fContext.fCapsUseNodePools && settings.fDSLUseMemoryPool) ∧
      (ThreadContext.destruct
          (ThreadContext.construct s kind settings module isModule fresh).1 s2).map
        (fun r => r.2) =
        Except.ok
          (ThreadContext.construct s kind settings module isModule fresh).1.fPool.isSome ∧
      (ThreadContext.destruct
          (ThreadContext.construct s kind settings module isModule fresh).1
          (ThreadContext.construct s kind settings module isModule fresh).2).map
        (fun r => r.1.attachedPools) = Except.ok s.attachedPools := by
  intro s kind settings module isModule fresh s2
  refine ⟨?_, ?_, ?_⟩
  · by_cases h : (!isModule && s.fContext.fCapsUseNodePools && settings.fDSLUseMemoryPool) = true
    · simp [ThreadContext.construct, h]
    · simp [ThreadContext.construct, h]
  · rw [ThreadContext.destruct_of_empty_elements _ s2
      (ThreadContext.construct_programElements s kind settings module isModule fresh)]
    rfl
  · rw [ThreadContext.destruct_of_empty_elements _ _
      (ThreadContext.construct_programElements s kind settings module isModule fresh)]
    by_cases h : (!isModule && s.fContext.fCapsUseNodePools && settings.fDSLUseMemoryPool) = true
    · simp [ThreadContext.construct, h, Except.map]
    · simp [ThreadContext.construct, h, Except.map]

/-- C6: constructing with isModule = true creates no modifiers registry
(the context owns none) and leaves the compiler's modifiers-registry slot
unchanged; with isModule = false a fresh registry is created, owned by the
context, and installed as the compiler's slot. -/
theorem c6_builtin_module_shares_modifiers_registry :
    ∀ (s : CompilerState) (kind : ProgramKind) (settings : ProgramSettings)
      (module : ParsedModule) (fresh : Nat),
      (ThreadContext.construct s kind settings module true fresh).2.fContext.fModifiersPool =
        s.fContext.fModifiersPool ∧
      (ThreadContext.construct s kind settings module true fresh).1.fModifiersPool = none ∧
      (ThreadContext.construct s kind settings module false fresh).1.fModifiersPool =
        some (fresh + 1) ∧
      (ThreadContext.construct s kind settings module false fresh).2.fContext.fModifiersPool =
        (ThreadContext.construct s kind settings module false fresh).1.fModifiersPool := by
  intro s kind settings module fresh
  exact ⟨rfl, rfl, rfl, rfl⟩

/-- C2 counterexample: destroying a context whose emission frame stack is
non-empty succeeds with no error outcome — the destructor does not detect the
unmatched StartFragmentProcessor. -/
theorem c2_counterexample_destructor_ignores_pending_frames :
    tcPendingFrame.fStack ≠ [] ∧
    ThreadContext.destruct tcPendingFrame
      (ThreadContext.construct sampleState 0 sampleSettings
        { fSymbols := some [], fElements := none } false 0).2 ≠ Except.error () :=
  ⟨fun h => List.noConfusion h, fun h => Except.noConfusion h⟩

/-- C2 (amended): the destructor never examines the emission frame stack:
destruction behaves identically whatever the stack holds, so a non-empty
stack (a started emission never ended) is silently discarded, not a detected
error condition. -/
theorem c2_destructor_independent_of_frame_stack :
    ∀ (tc : ThreadContext) (stk : List StackFrame) (s : CompilerState),
      ThreadContext.destruct { tc with fStack := stk } s = ThreadContext.destruct tc s := by
  intro tc stk s
  rfl

/-- C3 counterexample: in the STARBOARD build, SetInstance with a context
already installed and a non-null new context performs no check: it installs
the new instance with no fatal outcome, although both the installed and the
new instance are non-null. -/
theorem c3_counterexample_starboard_setInstance_unchecked :
    ThreadContext.SetInstanceStarboard (some 0) (some 1) = some 1 ∧
    (some 0 : Option Nat).isNone = (some 1 : Option Nat).isNone := by
  decide

/-- C3 (amended): in the default build SetInstance is fatal unless exactly one
of {installed instance, new instance} is null, and a valid call installs the
new instance (the previous one being destroyed); the STARBOARD build's
SetInstance installs the new instance unconditionally, with no fatality
check. -/
theorem c3_setInstance_exactly_one_null :
    ∀ (inst newInstance : Option Nat),
      (inst.isNone ≠ newInstance.isNone →
        ThreadContext.SetInstance inst newInstance = Except.ok newInstance) ∧
      (inst.isNone = newInstance.isNone →
        ThreadContext.SetInstance inst newInstance = Except.error ()) ∧
      ThreadContext.SetInstanceStarboard inst newInstance = newInstance := by
  intro inst newInstance
  refine ⟨?_, ?_, rfl⟩
  · intro h
    simp [ThreadContext.SetInstance, bne_iff_ne, h]
  · intro h
    simp [ThreadContext.SetInstance, bne_iff_ne, h]

/-- C3 witness: installing over nothing succeeds; replacing non-null with
non-null without clearing first is fatal. -/
theorem c3_setInstance_exactly_one_null_witness :
    ThreadContext.SetInstance none (some 5) = Except.ok (some 5) ∧
    ThreadContext.SetInstance (some 5) (some 6) = Except.error () :=
  ⟨(c3_setInstance_exactly_one_null none (some 5)).1 (by decide),
   (c3_setInstance_exactly_one_null (some 5) (some 6)).2.1 (by decide)⟩

/-- C4: when no context is installed (IsActive is false), Instance is a fatal
condition in both builds (an assertion failure in the default build, a null
dereference in the STARBOARD build), never a normal return; when a context is
installed, IsActive is true and Instance returns exactly that context. -/
theorem c4_instance_requires_active :
    ∀ (inst : Option Nat),
      (ThreadContext.IsActive inst = false →
        ThreadContext.Instance inst = Except.error () ∧
        ThreadContext.InstanceStarboard inst = Except.error ()) ∧
      (∀ t : Nat, inst = some t →
        ThreadContext.IsActive inst = true ∧
        ThreadContext.Instance inst = Except.ok t ∧
        ThreadContext.InstanceStarboard inst = Except.ok t) := by
  intro inst
  refine ⟨?_, ?_⟩
  · intro h
    cases inst with
    | none => exact ⟨rfl, rfl⟩
    | some t => simp [ThreadContext.IsActive] at h
  · intro t h
    subst h
    exact ⟨rfl, rfl, rfl⟩

/-- C4 witness: with no installed context Instance is fatal; with context 7
installed it is returned. -/
theorem c4_instance_requires_active_witness :
    (ThreadContext.Instance none = Except.error () ∧
      ThreadContext.InstanceStarboard none = Except.error ()) ∧
    (ThreadContext.IsActive (some 7) = true ∧
      ThreadContext.Instance (some 7) = Except.ok 7 ∧
      ThreadContext.InstanceStarboard (some 7) = Except.ok 7) :=
  ⟨(c4_instance_requires_active none).1 rfl,
   (c4_instance_requires_active (some 7)).2 7 rfl⟩

/-- C7: EndFragmentProcessor on an empty frame stack is fatal (the
protocol-violation assertion); on a non-empty stack it swaps the saved
declaration buffer back into the builder, pops the top frame, and pops one
symbol-table scope. -/
theorem c7_endFragmentProcessor_requires_frame :
    ∀ (b : List Nat) (n : Nat) (f : StackFrame) (rest : List StackFrame),
      ThreadContext.EndFragmentProcessor
        { fDeclarations := b, fStack := [], scopes := n } = Except.error () ∧
      ThreadContext.EndFragmentProcessor
        { fDeclarations := b, fStack := f :: rest, scopes := n } =
        Except.ok
          { fDeclarations := f.fSavedDeclarations, fStack := rest, scopes := n - 1 } := by
  intro b n f rest
  exact ⟨rfl, rfl⟩

namespace ThreadContext

/-- Running a concatenation of emission steps runs the first part, then the
second on its result (errors propagate). -/
theorem runOps_append (xs ys : List EmitOp) :
    ∀ t, runOps (xs ++ ys) t =
      match runOps xs t with
      | .error e => .error e
      | .ok t1 => runOps ys t1 := by
  induction xs with
  | nil => intro t; rfl
  | cons x rest ih =>
    intro t
    cases x with
    | emit d => simpa [runOps] using ih (emitDecl d t)
    | start p a => simpa [runOps] using ih (StartFragmentProcessor p a t)
    | stop =>
      cases he : EndFragmentProcessor t with
      | error e => simp [runOps, he]
      | ok t1 =>
        simp only [List.cons_append, runOps, he]
        exact ih t1

/-- Emitting a list of declarations appends them, in order, to the builder's
live declaration buffer and touches neither the frame stack nor the
symbol-table depth. -/
theorem runOps_emits (ds : List Nat) :
    ∀ t : EmitState, runOps (ds.map EmitOp.emit) t =
      Except.ok { t with fDeclarations := t.fDeclarations ++ ds } := by
  induction ds with
  | nil => intro t; simp [runOps]
  | cons d rest ih =>
    intro t
    have := ih (emitDecl d t)
    simp only [List.map, runOps, emitDecl] at this ⊢
    simpa [List.append_assoc] using this

/-- Running any balanced sequence of emission steps succeeds and returns with
the frame stack and symbol-table depth exactly as it found them (only the
builder's live declaration buffer may change). -/
theorem runOps_balanced {ops : List EmitOp} (h : Balanced ops) :
    ∀ t : EmitState, ∃ b, runOps ops t =
      Except.ok { fDeclarations := b, fStack := t.fStack, scopes := t.scopes } := by
  induction h with
  | nil => intro t; exact ⟨t.fDeclarations, rfl⟩
  | emit d rest hr ih =>
    intro t
    obtain ⟨b, hb⟩ := ih (emitDecl d t)
    exact ⟨b, by simpa [runOps, emitDecl] using hb⟩
  | nest p a inner rest hi hr ihi ihr =>
    intro t
    obtain ⟨bi, hbi⟩ := ihi (StartFragmentProcessor p a t)
    obtain ⟨br, hbr⟩ :=
      ihr { fDeclarations := t.fDeclarations, fStack := t.fStack, scopes := t.scopes }
    refine ⟨br, ?_⟩
    show runOps (inner ++ EmitOp.stop :: rest) (StartFragmentProcessor p a t) = _
    rw [runOps_append inner (EmitOp.stop :: rest) (StartFragmentProcessor p a t), hbi]
    simpa [runOps, EndFragmentProcessor] using hbr

end ThreadContext

/-- C8: after StartFragmentProcessor the builder's declaration buffer is
empty; declarations emitted between the pair accumulate, in order, only in
that inner buffer; any balanced sequence of intervening steps leaves the
pushed frame (holding the enclosing frame's accumulated declarations) intact;
and the matching EndFragmentProcessor restores the builder's buffer to
exactly the enclosing frame's declarations, with stack and scope depth as
before the start. -/
theorem c8_declaration_buffer_isolation :
    ∀ (p a : Nat) (s : EmitState) (ds : List Nat) (ops : List ThreadContext.EmitOp),
      ThreadContext.Balanced ops →
      (ThreadContext.StartFragmentProcessor p a s).fDeclarations = [] ∧
      ThreadContext.runOps (ds.map ThreadContext.EmitOp.emit)
          (ThreadContext.StartFragmentProcessor p a s) =
        Except.ok
          { fDeclarations := ds
            fStack := { fProcessor := p, fEmitArgs := a
                        fSavedDeclarations := s.fDeclarations } :: s.fStack
            scopes := s.scopes + 1 } ∧
      (∃ mid, ThreadContext.runOps ops (ThreadContext.StartFragmentProcessor p a s) =
        Except.ok mid) ∧
      (∀ mid, ThreadContext.runOps ops (ThreadContext.StartFragmentProcessor p a s) =
          Except.ok mid →
        mid.fStack = { fProcessor := p, fEmitArgs := a
                       fSavedDeclarations := s.fDeclarations } :: s.fStack ∧
        ThreadContext.EndFragmentProcessor mid =
          Except.ok { fDeclarations := s.fDeclarations, fStack := s.fStack
                      scopes := s.scopes }) := by
  intro p a s ds ops hbal
  refine ⟨rfl, ?_, ?_, ?_⟩
  · simpa [ThreadContext.StartFragmentProcessor]
      using ThreadContext.runOps_emits ds (ThreadContext.StartFragmentProcessor p a s)
  · obtain ⟨b, hb⟩ :=
      ThreadContext.runOps_balanced hbal (ThreadContext.StartFragmentProcessor p a s)
    exact ⟨_, hb⟩
  · intro mid hmid
    obtain ⟨b, hb⟩ :=
      ThreadContext.runOps_balanced hbal (ThreadContext.StartFragmentProcessor p a s)
    have hmid2 : mid =
        { fDeclarations := b
          fStack := (ThreadContext.StartFragmentProcessor p a s).fStack
          scopes := (ThreadContext.StartFragmentProcessor p a s).scopes } :=
      Except.ok.inj (hmid.symm.trans hb)
    subst hmid2
    exact ⟨rfl, rfl⟩

/-- C8 witness: starting with buffer [0], emitting declarations 1 and 2
inside the frame accumulates exactly [1, 2] in the inner buffer while the
frame keeps [0]; balanced-sequence hypothesis discharged on a concrete
sequence containing a nested start/stop pair. -/
theorem c8_declaration_buffer_isolation_witness :
    ThreadContext.runOps ([1, 2].map ThreadContext.EmitOp.emit)
        (ThreadContext.StartFragmentProcessor 9 8
          { fDeclarations := [0], fStack := [], scopes := 0 }) =
      Except.ok
        { fDeclarations := [1, 2]
          fStack := [{ fProcessor := 9, fEmitArgs := 8, fSavedDeclarations := [0] }]
          scopes := 1 } :=
  (c8_declaration_buffer_isolation 9 8
    { fDeclarations := [0], fStack := [], scopes := 0 } [1, 2]
    [ThreadContext.EmitOp.emit 1, ThreadContext.EmitOp.start 2 3,
     ThreadContext.EmitOp.emit 4, ThreadContext.EmitOp.stop, ThreadContext.EmitOp.emit 5]
    (ThreadContext.Balanced.emit 1 _
      (ThreadContext.Balanced.nest 2 3 [ThreadContext.EmitOp.emit 4]
        [ThreadContext.EmitOp.emit 5]
        (ThreadContext.Balanced.emit 4 [] ThreadContext.Balanced.nil)
        (ThreadContext.Balanced.emit 5 [] ThreadContext.Balanced.nil)))).2.1

/-- C9: the default error reporter's handler aborts on every message and
position — it never returns normally — and its diagnostic states that no
SkSL error reporter was configured; construction installs this default
reporter as the compiler's active error reporter. -/
theorem c9_default_reporter_always_aborts :
    ∀ (msg : String) (pos : Nat) (s : CompilerState) (kind : ProgramKind)
      (settings : ProgramSettings) (module : ParsedModule) (isModule : Bool) (fresh : Nat),
      ThreadContext.DefaultErrorReporter.handleError msg pos ≠
        ThreadContext.HandlerOutcome.returned ∧
      (∃ pre post, ThreadContext.DefaultErrorReporter.handleError msg pos =
        ThreadContext.HandlerOutcome.abort
          (pre ++ "No SkSL error reporter configured" ++ post)) ∧
      (ThreadContext.construct s kind settings module isModule fresh).2.fContext.fErrors =
        (ThreadContext.construct s kind settings module isModule fresh).1.fDefaultErrorReporter := by
  intro msg pos s kind settings module isModule fresh
  refine ⟨fun h => ThreadContext.HandlerOutcome.noConfusion h, ?_, rfl⟩
  refine ⟨"error: " ++ msg ++ "\n", ", treating this as a fatal error\n", ?_⟩
  have hlit : ("\n" : String) ++
      ("No SkSL error reporter configured" ++ ", treating this as a fatal error\n") =
      "\nNo SkSL error reporter configured, treating this as a fatal error\n" := by decide
  show ThreadContext.HandlerOutcome.abort _ = _
  simp only [String.append_assoc]
  rw [hlit]

/-- C10: Modifiers dereferences the compiler's modifiers-registry slot with no
null check — a null slot is a fatal precondition failure, a non-null slot
interns into that registry — and the null slot is reachable at the public
interface: constructing a context with isModule = true over a compiler whose
slot is null leaves the slot null. -/
theorem c10_modifiers_requires_installed_registry :
    ∀ (s : CompilerState) (m : Nat),
      (s.fContext.fModifiersPool = none →
        ThreadContext.Modifiers s m = Except.error ()) ∧
      (∀ p, s.fContext.fModifiersPool = some p →
        ThreadContext.Modifiers s m = Except.ok (p, m)) ∧
      (∀ (kind : ProgramKind) (settings : ProgramSettings) (module : ParsedModule)
          (fresh : Nat),
        s.fContext.fModifiersPool = none →
        (ThreadContext.construct s kind settings module true fresh).2.fContext.fModifiersPool =
          none) := by
  intro s m
  refine ⟨?_, ?_, ?_⟩
  · intro h; simp [ThreadContext.Modifiers, h]
  · intro p h; simp [ThreadContext.Modifiers, h]
  · intro kind settings module fresh h; exact h

/-- C10 witness: on a state with a null modifiers-registry slot, Modifiers is
fatal, and a builtin-module construction over that state leaves the slot
null. -/
theorem c10_modifiers_requires_installed_registry_witness :
    ThreadContext.Modifiers nullRegistryState 3 = Except.error () ∧
    (ThreadContext.construct nullRegistryState 0 sampleSettings
      { fSymbols := none, fElements := none } true 0).2.fContext.fModifiersPool = none :=
  ⟨(c10_modifiers_requires_installed_registry nullRegistryState 3).1 rfl,
   (c10_modifiers_requires_installed_registry nullRegistryState 3).2.2 0 sampleSettings
     { fSymbols := none, fElements := none } 0 rfl⟩

end SkSLModel
